import Mathlib

/-!
Verification development for the campus learning dashboard repository
(DharamshalaGoalSet). It embeds, as executable Lean definitions:

* the two scheduled attendance reporter scripts
  (`scripts/daily-goal-report.js`, here from `src/unnamed/part_002`, and
  `src/scripts/daily-reflection-report.js`): the IST "today" computation,
  the Firestore timestamp range query, the present/absent partition, the
  Discord embed construction, the webhook success criterion, and the
  top-level control flow (empty-student early exit, catch block with the
  best-effort secondary error post, exit codes);
* the mentor-change-request lifecycle (create/approve/reject) and the
  notification banner controller.  The TypeScript modules implementing
  these (`src/services/dataServices.ts`,
  `src/components/Admin/MentorCampusTab.tsx`) are not part of the source
  tree; those definitions are modelled from the specification and from the
  code snippets quoted in the repository documents
  (`src/unnamed/part_000`, `src/NOTIFICATION_SYSTEM_FIX.md`).

Numbers standing for instants are milliseconds since the Unix epoch
(mathematical integers); calendar days are day indices (day d covers
`[d*86400000, (d+1)*86400000)` in UTC).  JS string operations that count
UTF-16 code units (`length`, `substring`) are modelled on the character
list of the Lean string.
-/

namespace DGS

/-! ### Reporter scripts: data model (daily-goal-report.js / daily-reflection-report.js) -/

/-- A student row as read by the goal reporter (`getAllStudents`,
part_002 lines 67-87): document id plus `name`/`email`/`campus`/`house`
with their falsy-fallback defaults already applied. -/
structure GoalStudent where
  id : String
  name : String
  email : String
  campus : String
  house : String
deriving DecidableEq, Repr

/-- A `daily_goals` (or `daily_reflections`) document as far as the
reporters read it: its `created_at` timestamp (ms since epoch) and its
optional `student_id` field. -/
structure GoalDoc where
  created_at : Int
  student_id : Option String
deriving DecidableEq, Repr

/-- Milliseconds per calendar day. -/
def msPerDay : Int := 86400000

/-- The fixed IST offset used by both reporters:
`5.5 * 60 * 60 * 1000` ms (part_002 line 54). -/
def istOffsetMs : Int := 19800000

/-- Embedding of `getTodayDateIST` (part_002 lines 51-62): the current
instant is shifted by the IST offset and truncated (floor) to a UTC
calendar day; the returned `YYYY-MM-DD` string is identified with that
day index. -/
def istDayIndex (now : Int) : Int := (now + istOffsetMs).fdiv msPerDay

/-- Lower bound of the reporters' Firestore range query
(`new Date(todayDate)`, part_002 line 96): a date-only string parses as
UTC midnight of that calendar day. -/
def queryLowerMs (d : Int) : Int := d * msPerDay

/-- Upper bound of the range query
(`new Date(todayDate + 'T23:59:59')`, part_002 line 97): a date-time
string without a zone parses in the runner's local time, so the bound is
23:59:59 local of day `d`; `tzMs` is the runner's offset east of UTC in
ms (0 on a UTC runner). -/
def queryUpperMs (d : Int) (tzMs : Int) : Int := d * msPerDay + 86399000 - tzMs

/-- The reporters' submission-matching predicate
(`created_at >= todayStart && created_at < todayEnd` for today's date,
part_002 lines 95-98): the half-open interval
`[queryLowerMs d, queryUpperMs d tzMs)` with `d = istDayIndex now`. -/
def matchesTodayQuery (now t tzMs : Int) : Bool :=
  decide (queryLowerMs (istDayIndex now) ≤ t) && decide (t < queryUpperMs (istDayIndex now) tzMs)

/-- Modelled from the spec: the predicate the specification describes —
"a submission is counted as today's iff its `created_at` lies in the
half-open range `[todayStart, todayEnd)` covering exactly that calendar
day", the calendar day being the IST one returned by `getTodayDateIST`.
IST calendar day `d` covers `[d*msPerDay - istOffsetMs,
(d+1)*msPerDay - istOffsetMs)` in epoch ms. -/
def inIstCalendarDay (now t : Int) : Bool :=
  decide (istDayIndex now * msPerDay - istOffsetMs ≤ t) &&
    decide (t < (istDayIndex now + 1) * msPerDay - istOffsetMs)

/-- Embedding of `getStudentsWithGoalsToday` (part_002 lines 92-110):
documents in the query range contribute their `student_id` when that
field is truthy; the resulting set of ids (first occurrence order). -/
def studentIdsWithGoalsToday (docs : List GoalDoc) (now tzMs : Int) : List String :=
  ((docs.filter (fun g => matchesTodayQuery now g.created_at tzMs)).filterMap
    (fun g => match g.student_id with
      | some s => if s.isEmpty then none else some s
      | none => none)).dedup

/-- The `presentStudents` list of the goal reporter's partition loop
(part_002 lines 182-191): students whose id is in today's submitter set. -/
def presentStudents (students : List GoalStudent) (ids : List String) : List GoalStudent :=
  students.filter (fun s => ids.contains s.id)

/-- The `absentStudents` list of the same loop: all other students. -/
def absentStudents (students : List GoalStudent) (ids : List String) : List GoalStudent :=
  students.filter (fun s => !(ids.contains s.id))

/-- The sorted absent-name list (part_002 lines 203-206,
`absentStudents.map(s => s.name).sort()`), before comma-joining. -/
def sortedAbsentNames (students : List GoalStudent) (ids : List String) : List String :=
  ((absentStudents students ids).map (fun s => s.name)).mergeSort (fun a b => decide (a ≤ b))

/-- The comma-joined absent-name string (`.join(', ')`). -/
def absentNamesJoined (students : List GoalStudent) (ids : List String) : String :=
  String.intercalate ", " (sortedAbsentNames students ids)

/-- Splitting a list by a Boolean predicate partitions its length. -/
theorem length_filter_add_length_filter_not {α : Type} (l : List α) (p : α → Bool) :
    (l.filter p).length + (l.filter (fun x => !p x)).length = l.length := by
  induction l with
  | nil => simp
  | cons x xs ih => cases h : p x <;> simp [List.filter_cons, h] <;> omega

/-- C5: for every run of the goal reporter, over any set of students and
goal submissions, `presentCount + absentCount` equals the total number of
students (Present = students with at least one submission in range,
Absent = the rest), and the absent-name list contains exactly the
`absentCount` names, sorted ascending. -/
theorem goal_report_partition (students : List GoalStudent) (docs : List GoalDoc)
    (now tzMs : Int) :
    (presentStudents students (studentIdsWithGoalsToday docs now tzMs)).length
        + (absentStudents students (studentIdsWithGoalsToday docs now tzMs)).length
      = students.length
    ∧ (sortedAbsentNames students (studentIdsWithGoalsToday docs now tzMs)).length
      = (absentStudents students (studentIdsWithGoalsToday docs now tzMs)).length
    ∧ ((absentStudents students (studentIdsWithGoalsToday docs now tzMs)).map
          (fun s => s.name)).Perm
        (sortedAbsentNames students (studentIdsWithGoalsToday docs now tzMs))
    ∧ List.Pairwise (fun a b : String => a ≤ b)
        (sortedAbsentNames students (studentIdsWithGoalsToday docs now tzMs)) := by
  refine ⟨?_, ?_, ?_, ?_⟩
  · exact length_filter_add_length_filter_not students
      (fun s => (studentIdsWithGoalsToday docs now tzMs).contains s.id)
  · calc (sortedAbsentNames students (studentIdsWithGoalsToday docs now tzMs)).length
        = ((absentStudents students (studentIdsWithGoalsToday docs now tzMs)).map
            (fun s => s.name)).length := (List.mergeSort_perm _ _).length_eq
      _ = (absentStudents students (studentIdsWithGoalsToday docs now tzMs)).length :=
          List.length_map _ _
  · exact (List.mergeSort_perm _ _).symm
  · have h := @List.sorted_mergeSort String
      (fun a b : String => decide (a ≤ b))
      (fun a b c hab hbc => by
        simp only [decide_eq_true_eq] at *
        exact le_trans hab hbc)
      (fun a b => by
        simp only [Bool.or_eq_true, decide_eq_true_eq]
        exact le_total a b)
      ((absentStudents students (studentIdsWithGoalsToday docs now tzMs)).map
        (fun s => s.name))
    exact h.imp (fun hab => by simpa using hab)

/-- C4: the claim asserts that the query range is exactly the IST calendar
day named by `getTodayDateIST`.  The code violates it: run at
`now = 86400000` (1970-01-02T00:00:00Z, which is 05:30 IST on Jan 2, so
the IST day index is 1), a submission at `t = 66600000`
(1970-01-01T18:30:00Z = 1970-01-02T00:00:00 IST) lies inside the IST
calendar day but outside the query range, whatever the runner's local
offset (shown for a UTC runner and an IST runner), because the query's
lower bound is UTC midnight of the IST date label, not IST midnight; the
query also stops at 23:59:59 instead of the end of the day.  Such a
submission is dropped by `studentIdsWithGoalsToday`. -/
theorem today_query_misses_ist_day :
    istDayIndex 86400000 = 1
    ∧ inIstCalendarDay 86400000 66600000 = true
    ∧ matchesTodayQuery 86400000 66600000 0 = false
    ∧ matchesTodayQuery 86400000 66600000 istOffsetMs = false
    ∧ studentIdsWithGoalsToday [⟨66600000, some "s1"⟩] 86400000 0 = []
    ∧ matchesTodayQuery 86400000 (86400000 + 86399500) 0 = false
    ∧ inIstCalendarDay (86400000 + 86399500) (86400000 + 86399500) = true := by
  constructor
  · decide
  · constructor
    · decide
    · refine ⟨by decide, by decide, ?_, by decide, by decide⟩
      simp [studentIdsWithGoalsToday]
      decide

/-! ### Reporter scripts: Discord embed construction -/

/-- One named field of a Discord embed (`{ name, value, inline }`). -/
structure EmbedField where
  name : String
  value : String
  isInline : Bool
deriving DecidableEq, Repr

/-- The Discord embed payload built by the reporters: title, description,
colour code, ISO timestamp, field list, footer text. -/
structure DiscordEmbed where
  title : String
  description : String
  color : Nat
  timestamp : String
  fields : List EmbedField
  footerText : String
deriving DecidableEq, Repr

/-- The attendance percentage in tenths of a percent:
`((presentCount / totalCount) * 100).toFixed(1)` rounded half-up
(part_002 line 196).  Floating-point display artefacts of `toFixed` are
not modelled; no claim depends on the rounded digits. -/
def pctTenths (p t : Nat) : Nat := (p * 2000 + t) / (2 * t)

/-- The percentage string `XX.Y` produced by `toFixed(1)`. -/
def pctString (p t : Nat) : String :=
  toString (pctTenths p t / 10) ++ "." ++ toString (pctTenths p t % 10)

/-- The three count fields shared by the goal embed
(part_002 lines 214-230). -/
def goalBaseFields (presentCount absentCount totalCount : Nat) : List EmbedField :=
  [ { name := "✅ Present", value := "**" ++ toString presentCount ++ "** students",
      isInline := true },
    { name := "❌ Absent", value := "**" ++ toString absentCount ++ "** students",
      isInline := true },
    { name := "📈 Attendance Rate", value := "**" ++ pctString presentCount totalCount ++ "%**",
      isInline := true } ]

/-- The conditional fourth field of the goal embed (part_002 lines
236-249): the absent-name list truncated to Discord's 1000-character
field budget when there are absentees, a Perfect Attendance banner
otherwise.  JS `length`/`substring` count UTF-16 code units; they are
modelled on the string's character list. -/
def goalExtraField (absentCount : Nat) (absentNames : String) : EmbedField :=
  if 0 < absentCount then
    { name := "👥 Absent Students",
      value := if 1000 < absentNames.length
        then String.mk (absentNames.data.take 997) ++ "..."
        else absentNames,
      isInline := false }
  else
    { name := "🎉 Perfect Attendance!",
      value := "All students have submitted their goals today!",
      isInline := false }

/-- The full goal-report embed (part_002 lines 209-249). -/
def goalEmbed (todayDate nowIso : String) (presentCount absentCount totalCount : Nat)
    (absentNames : String) : DiscordEmbed :=
  { title := "🌅 Morning Attendance"
    description := "Attendance report for **" ++ todayDate ++ "**"
    color := if absentCount < presentCount then 65280 else 16776960
    timestamp := nowIso
    fields := goalBaseFields presentCount absentCount totalCount
      ++ [goalExtraField absentCount absentNames]
    footerText := "Campus Learning Dashboard - Daily Report" }

/-- The motivational fourth field of the reflection embed
(daily-reflection-report.js lines 217-248), branching on the attendance
percentage (the JS compares the one-decimal percentage string coerced
back to a number). -/
def reflectionMotivationField (presentCount totalCount : Nat) : EmbedField :=
  if presentCount = totalCount then
    { name := "🎉 Perfect Day!",
      value := "All students completed both goals AND reflections today!", isInline := false }
  else if 900 ≤ pctTenths presentCount totalCount then
    { name := "💪 Excellent Work!", value := "Outstanding completion rate today!",
      isInline := false }
  else if 750 ≤ pctTenths presentCount totalCount then
    { name := "👍 Good Progress", value := "Keep up the momentum!", isInline := false }
  else if 500 ≤ pctTenths presentCount totalCount then
    { name := "📝 Reminder",
      value := "Encourage students to complete their reflections before day end.",
      isInline := false }
  else
    { name := "⚠️ Low Completion",
      value := "Many students haven\x27t submitted reflections yet. Consider sending reminders.",
      isInline := false }

/-- The full reflection-report embed (daily-reflection-report.js lines
190-248); it is built from counts only — the script never collects or
formats student names. -/
def reflectionEmbed (todayDate nowIso : String) (presentCount totalCount : Nat) : DiscordEmbed :=
  { title := "🌙 Evening Attendance"
    description := "Attendance report for **" ++ todayDate ++ "**"
    color := if totalCount - presentCount < presentCount then 5763719 else 15844367
    timestamp := nowIso
    fields :=
      [ { name := "✅ Present", value := "**" ++ toString presentCount ++ "** students",
          isInline := true },
        { name := "❌ Absent", value := "**" ++ toString (totalCount - presentCount) ++ "** students",
          isInline := true },
        { name := "📈 Completion Rate",
          value := "**" ++ pctString presentCount totalCount ++ "%**", isInline := true },
        reflectionMotivationField presentCount totalCount ]
    footerText := "Campus Learning Dashboard - Evening Report" }

/-- C6: in the goal embed the extra field is the absent-students list
exactly when someone is absent — untruncated when within the
1000-character budget, otherwise cut to 997 characters plus an ellipsis
and so never exceeding the budget — and a Perfect Attendance banner when
nobody is; the reflection embed's fields never carry student names (its
field names come from a fixed count-only palette). -/
theorem absent_names_field_and_budget (students : List GoalStudent) (ids : List String)
    (todayDate nowIso : String) (presentCount totalCount : Nat) :
    ((goalEmbed todayDate nowIso presentCount
          (absentStudents students ids).length students.length
          (absentNamesJoined students ids)).fields
      = goalBaseFields presentCount (absentStudents students ids).length students.length
          ++ [goalExtraField (absentStudents students ids).length
                (absentNamesJoined students ids)])
    ∧ (0 < (absentStudents students ids).length →
        (goalExtraField (absentStudents students ids).length
            (absentNamesJoined students ids)).name = "👥 Absent Students"
        ∧ ((absentNamesJoined students ids).length ≤ 1000 →
            (goalExtraField (absentStudents students ids).length
                (absentNamesJoined students ids)).value = absentNamesJoined students ids)
        ∧ (1000 < (absentNamesJoined students ids).length →
            (goalExtraField (absentStudents students ids).length
                (absentNamesJoined students ids)).value
              = String.mk ((absentNamesJoined students ids).data.take 997) ++ "..."
            ∧ (goalExtraField (absentStudents students ids).length
                  (absentNamesJoined students ids)).value.length = 1000)
        ∧ (goalExtraField (absentStudents students ids).length
              (absentNamesJoined students ids)).value.length ≤ 1000)
    ∧ ((absentStudents students ids).length = 0 →
        (goalExtraField (absentStudents students ids).length
            (absentNamesJoined students ids)).name = "🎉 Perfect Attendance!")
    ∧ (∀ f ∈ (reflectionEmbed todayDate nowIso presentCount totalCount).fields,
        f.name ∈ ["✅ Present", "❌ Absent", "📈 Completion Rate", "🎉 Perfect Day!",
          "💪 Excellent Work!", "👍 Good Progress", "📝 Reminder", "⚠️ Low Completion"]) := by
  refine ⟨rfl, ?_, ?_, ?_⟩
  · intro hpos
    have hname : (goalExtraField (absentStudents students ids).length
        (absentNamesJoined students ids)).name = "👥 Absent Students" := by
      simp [goalExtraField, hpos]
    refine ⟨hname, ?_, ?_, ?_⟩
    · intro hle
      simp [goalExtraField, hpos, Nat.not_lt.mpr hle]
    · intro hgt
      have hval : (goalExtraField (absentStudents students ids).length
          (absentNamesJoined students ids)).value
          = String.mk ((absentNamesJoined students ids).data.take 997) ++ "..." := by
        simp [goalExtraField, hpos, hgt]
      refine ⟨hval, ?_⟩
      rw [hval, String.length_append]
      have hlen : (String.mk ((absentNamesJoined students ids).data.take 997)).length = 997 := by
        simp only [String.length, List.length_take]
        have : 997 ≤ (absentNamesJoined students ids).data.length := by
          have := hgt
          simp only [String.length] at this
          omega
        omega
      rw [hlen]
      rfl
    · by_cases hgt : 1000 < (absentNamesJoined students ids).length
      · have hval : (goalExtraField (absentStudents students ids).length
            (absentNamesJoined students ids)).value
            = String.mk ((absentNamesJoined students ids).data.take 997) ++ "..." := by
          simp [goalExtraField, hpos, hgt]
        rw [hval, String.length_append]
        have hlen : (String.mk ((absentNamesJoined students ids).data.take 997)).length = 997 := by
          simp only [String.length, List.length_take]
          have : 997 ≤ (absentNamesJoined students ids).data.length := by
            simp only [String.length] at hgt
            omega
          omega
        rw [hlen]
        decide
      · have hval : (goalExtraField (absentStudents students ids).length
            (absentNamesJoined students ids)).value = absentNamesJoined students ids := by
          simp [goalExtraField, hpos, hgt]
        rw [hval]
        omega
  · intro hz
    simp [goalExtraField, hz]
  · intro f hf
    simp only [reflectionEmbed, List.mem_cons, List.mem_singleton] at hf
    rcases hf with h | h | h | h | h
    · simp [h]
    · simp [h]
    · simp [h]
    · rw [h]
      unfold reflectionMotivationField
      split
      · simp
      · split
        · simp
        · split
          · simp
          · split
            · simp
            · simp
    · simp at h

/-! ### Reporter scripts: webhook transport and top-level control flow -/

/-- Outcome of one HTTPS webhook round trip as the scripts observe it:
either a response with a status code and body, or a request error. -/
inductive HttpOutcome where
  | response : Nat → String → HttpOutcome
  | reqError : String → HttpOutcome
deriving DecidableEq, Repr

/-- Embedding of `sendDiscordNotification` (part_002 lines 115-158,
identical in daily-reflection-report.js lines 113-156): the promise
resolves exactly on a 204 or 200 status; any other status rejects with a
`Discord API error` message and a request error rejects with its own
message. -/
def sendDiscordNotification : HttpOutcome → Except String Unit
  | .response s _ => if s = 204 ∨ s = 200 then .ok () else .error ("Discord API error: " ++ toString s)
  | .reqError m => .error m

/-- C8: a webhook post of either reporter succeeds iff the HTTP response
status is 200 or 204; any other status, and any request error, surfaces
as a rejected/thrown error. -/
theorem webhook_success_iff_200_or_204 (o : HttpOutcome) :
    (sendDiscordNotification o = .ok ())
      ↔ ∃ s b, o = .response s b ∧ (s = 200 ∨ s = 204) := by
  constructor
  · intro h
    cases o with
    | response s b =>
      by_cases hc : s = 204 ∨ s = 200
      · exact ⟨s, b, rfl, hc.elim (fun h204 => Or.inr h204) (fun h200 => Or.inl h200)⟩
      · simp [sendDiscordNotification, hc] at h
    | reqError m => simp [sendDiscordNotification] at h
  · rintro ⟨s, b, rfl, hs⟩
    simp [sendDiscordNotification]
    tauto

/-- The result of one awaited effect inside `main`, as seen by the
control flow: the value, or a thrown error. -/
inductive StepResult (α : Type) where
  | ok : α → StepResult α
  | err : String → StepResult α
deriving DecidableEq, Repr

/-- The environment a goal-reporter run executes against: what each
remote step would return, the current instant, the runner's local UTC
offset, and the display strings. -/
structure GoalRunEnv where
  studentsRes : StepResult (List GoalStudent)
  goalsRes : StepResult (List GoalDoc)
  now : Int
  tzMs : Int
  todayDateStr : String
  nowIso : String
  primaryPostRes : StepResult Unit
  errorPostRes : StepResult Unit
deriving DecidableEq, Repr

/-- The observable outcome of one reporter run: the process exit code,
the report embeds whose posting was attempted, how many secondary
(error-report) posts were attempted, and whether a secondary-post
failure was logged by the inner catch. -/
structure RunResult where
  exitCode : Nat
  reportPosts : List DiscordEmbed
  errorPosts : Nat
  secondaryFailLogged : Bool
deriving DecidableEq, Repr

/-- The catch block shared by both scripts (part_002 lines 258-287,
daily-reflection-report.js lines 257-286): attempt exactly one secondary
error post; if that post itself fails, only log it; then exit 1. -/
def catchOutcome (attempted : List DiscordEmbed) (secondaryRes : StepResult Unit) : RunResult :=
  { exitCode := 1
    reportPosts := attempted
    errorPosts := 1
    secondaryFailLogged := match secondaryRes with
      | .ok _ => false
      | .err _ => true }

/-- Embedding of `main` of the goal reporter (part_002 lines 163-288):
fetch students (exit 0 immediately when none), fetch today's goal ids,
partition, build the embed, post it; any thrown step lands in the catch
block. -/
def runGoalReport (env : GoalRunEnv) : RunResult :=
  match env.studentsRes with
  | .err _ => catchOutcome [] env.errorPostRes
  | .ok students =>
    if students.length = 0 then
      { exitCode := 0, reportPosts := [], errorPosts := 0, secondaryFailLogged := false }
    else
      match env.goalsRes with
      | .err _ => catchOutcome [] env.errorPostRes
      | .ok docs =>
        let ids := studentIdsWithGoalsToday docs env.now env.tzMs
        let e := goalEmbed env.todayDateStr env.nowIso
          (presentStudents students ids).length
          (absentStudents students ids).length
          students.length
          (absentNamesJoined students ids)
        match env.primaryPostRes with
        | .ok _ => { exitCode := 0, reportPosts := [e], errorPosts := 0,
                     secondaryFailLogged := false }
        | .err _ => catchOutcome [e] env.errorPostRes

/-- The environment of a reflection-reporter run.  Its student rows only
carry `id` and `name`, but presence is decided by id membership alone,
so the same row type is reused. -/
structure ReflectionRunEnv where
  studentsRes : StepResult (List GoalStudent)
  reflectionsRes : StepResult (List GoalDoc)
  now : Int
  tzMs : Int
  todayDateStr : String
  nowIso : String
  primaryPostRes : StepResult Unit
  errorPostRes : StepResult Unit
deriving DecidableEq, Repr

/-- Embedding of `main` of the reflection reporter
(daily-reflection-report.js lines 161-287): counts come from the
submitter-id set size and the student total; no name list is built. -/
def runReflectionReport (env : ReflectionRunEnv) : RunResult :=
  match env.studentsRes with
  | .err _ => catchOutcome [] env.errorPostRes
  | .ok students =>
    if students.length = 0 then
      { exitCode := 0, reportPosts := [], errorPosts := 0, secondaryFailLogged := false }
    else
      match env.reflectionsRes with
      | .err _ => catchOutcome [] env.errorPostRes
      | .ok docs =>
        let e := reflectionEmbed env.todayDateStr env.nowIso
          (studentIdsWithGoalsToday docs env.now env.tzMs).length
          students.length
        match env.primaryPostRes with
        | .ok _ => { exitCode := 0, reportPosts := [e], errorPosts := 0,
                     secondaryFailLogged := false }
        | .err _ => catchOutcome [e] env.errorPostRes

/-- Whether some awaited step of the goal reporter run throws (reaching
the catch block): the student fetch, the goal fetch, or the primary
webhook post. -/
def goalStepFails (env : GoalRunEnv) : Bool :=
  match env.studentsRes with
  | .err _ => true
  | .ok students =>
    if students.length = 0 then false
    else match env.goalsRes with
      | .err _ => true
      | .ok _ => match env.primaryPostRes with
        | .err _ => true
        | .ok _ => false

/-- Whether some awaited step of the reflection reporter run throws. -/
def reflectionStepFails (env : ReflectionRunEnv) : Bool :=
  match env.studentsRes with
  | .err _ => true
  | .ok students =>
    if students.length = 0 then false
    else match env.reflectionsRes with
      | .err _ => true
      | .ok _ => match env.primaryPostRes with
        | .err _ => true
        | .ok _ => false

/-- C7: when any step of either reporter fails, the run attempts exactly
one secondary error post and exits with status 1, and the outcome of
that secondary post changes nothing except the logged flag: exit code,
attempted report posts and secondary-post count are identical for every
secondary outcome. -/
theorem reporter_failure_single_secondary_post_and_exit_1
    (genv : GoalRunEnv) (renv : ReflectionRunEnv) :
    (goalStepFails genv = true →
      (runGoalReport genv).exitCode = 1
      ∧ (runGoalReport genv).errorPosts = 1
      ∧ ∀ r : StepResult Unit,
          (runGoalReport { genv with errorPostRes := r }).exitCode
            = (runGoalReport genv).exitCode
          ∧ (runGoalReport { genv with errorPostRes := r }).errorPosts
            = (runGoalReport genv).errorPosts
          ∧ (runGoalReport { genv with errorPostRes := r }).reportPosts
            = (runGoalReport genv).reportPosts)
    ∧ (reflectionStepFails renv = true →
      (runReflectionReport renv).exitCode = 1
      ∧ (runReflectionReport renv).errorPosts = 1
      ∧ ∀ r : StepResult Unit,
          (runReflectionReport { renv with errorPostRes := r }).exitCode
            = (runReflectionReport renv).exitCode
          ∧ (runReflectionReport { renv with errorPostRes := r }).errorPosts
            = (runReflectionReport renv).errorPosts
          ∧ (runReflectionReport { renv with errorPostRes := r }).reportPosts
            = (runReflectionReport renv).reportPosts) := by
  constructor
  · intro hfail
    unfold goalStepFails at hfail
    unfold runGoalReport
    cases hs : genv.studentsRes with
    | err m => simp [catchOutcome]
    | ok students =>
      rw [hs] at hfail
      by_cases hlen : students.length = 0
      · simp [hlen] at hfail
      · simp only [hlen, if_false]
        cases hg : genv.goalsRes with
        | err m => simp [catchOutcome]
        | ok docs =>
          rw [hg] at hfail
          cases hp : genv.primaryPostRes with
          | err m => simp [catchOutcome]
          | ok u => simp [hlen, hp] at hfail
  · intro hfail
    unfold reflectionStepFails at hfail
    unfold runReflectionReport
    cases hs : renv.studentsRes with
    | err m => simp [catchOutcome]
    | ok students =>
      rw [hs] at hfail
      by_cases hlen : students.length = 0
      · simp [hlen] at hfail
      · simp only [hlen, if_false]
        cases hg : renv.reflectionsRes with
        | err m => simp [catchOutcome]
        | ok docs =>
          rw [hg] at hfail
          cases hp : renv.primaryPostRes with
          | err m => simp [catchOutcome]
          | ok u => simp [hlen, hp] at hfail

/-- A goal-reporter environment whose student fetch throws. -/
def goalEnvStudentsDown : GoalRunEnv :=
  { studentsRes := .err "boom", goalsRes := .ok [], now := 0, tzMs := 0,
    todayDateStr := "1970-01-01", nowIso := "t", primaryPostRes := .ok (),
    errorPostRes := .err "also down" }

/-- A reflection-reporter environment whose primary webhook post fails. -/
def reflectionEnvPostDown : ReflectionRunEnv :=
  { studentsRes := .ok [⟨"s1", "A", "", "", ""⟩], reflectionsRes := .ok [],
    now := 0, tzMs := 0, todayDateStr := "1970-01-01", nowIso := "t",
    primaryPostRes := .err "http 500", errorPostRes := .ok () }

/-- C7 witness: a goal run whose student fetch throws and a reflection
run whose primary post fails both exit 1 with exactly one secondary
post. -/
theorem reporter_failure_witness :
    (runGoalReport goalEnvStudentsDown).exitCode = 1
    ∧ (runReflectionReport reflectionEnvPostDown).errorPosts = 1 :=
  ⟨((reporter_failure_single_secondary_post_and_exit_1
      goalEnvStudentsDown reflectionEnvPostDown).1 (by decide)).1,
   ((reporter_failure_single_secondary_post_and_exit_1
      goalEnvStudentsDown reflectionEnvPostDown).2 (by decide)).2.1⟩

/-- C10: when the fetched student list is empty, either reporter exits 0
without attempting any webhook post, and a report embed (whose rate
field divides by the student total) is only ever built and posted on a
run whose student list is non-empty. -/
theorem empty_students_early_exit (genv : GoalRunEnv) (renv : ReflectionRunEnv) :
    (genv.studentsRes = .ok [] →
      runGoalReport genv
        = { exitCode := 0, reportPosts := [], errorPosts := 0, secondaryFailLogged := false })
    ∧ (renv.studentsRes = .ok [] →
      runReflectionReport renv
        = { exitCode := 0, reportPosts := [], errorPosts := 0, secondaryFailLogged := false })
    ∧ (∀ e ∈ (runGoalReport genv).reportPosts,
        ∃ students, genv.studentsRes = .ok students ∧ 0 < students.length)
    ∧ (∀ e ∈ (runReflectionReport renv).reportPosts,
        ∃ students, renv.studentsRes = .ok students ∧ 0 < students.length) := by
  refine ⟨?_, ?_, ?_, ?_⟩
  · intro h
    unfold runGoalReport
    rw [h]
    simp
  · intro h
    unfold runReflectionReport
    rw [h]
    simp
  · intro e he
    unfold runGoalReport at he
    cases hs : genv.studentsRes with
    | err m => rw [hs] at he; simp [catchOutcome] at he
    | ok students =>
      rw [hs] at he
      by_cases hlen : students.length = 0
      · simp [hlen] at he
      · exact ⟨students, rfl, Nat.pos_of_ne_zero hlen⟩
  · intro e he
    unfold runReflectionReport at he
    cases hs : renv.studentsRes with
    | err m => rw [hs] at he; simp [catchOutcome] at he
    | ok students =>
      rw [hs] at he
      by_cases hlen : students.length = 0
      · simp [hlen] at he
      · exact ⟨students, rfl, Nat.pos_of_ne_zero hlen⟩

/-- A goal-reporter environment returning an empty student list. -/
def goalEnvNoStudents : GoalRunEnv :=
  { studentsRes := .ok [], goalsRes := .err "unreached", now := 0, tzMs := 0,
    todayDateStr := "1970-01-01", nowIso := "t", primaryPostRes := .err "unreached",
    errorPostRes := .err "unreached" }

/-- A reflection-reporter environment returning an empty student list. -/
def reflectionEnvNoStudents : ReflectionRunEnv :=
  { studentsRes := .ok [], reflectionsRes := .err "unreached", now := 0, tzMs := 0,
    todayDateStr := "1970-01-01", nowIso := "t", primaryPostRes := .err "unreached",
    errorPostRes := .err "unreached" }

/-- C10 witness: a run of each reporter against an empty student list
exits 0 with no posts. -/
theorem empty_students_early_exit_witness :
    runGoalReport goalEnvNoStudents
      = { exitCode := 0, reportPosts := [], errorPosts := 0, secondaryFailLogged := false }
    ∧ runReflectionReport reflectionEnvNoStudents
      = { exitCode := 0, reportPosts := [], errorPosts := 0, secondaryFailLogged := false } :=
  ⟨(empty_students_early_exit goalEnvNoStudents reflectionEnvNoStudents).1 rfl,
   (empty_students_early_exit goalEnvNoStudents reflectionEnvNoStudents).2.1 rfl⟩

/-- Two goal-reporter students, one of whom submitted today. -/
def sampleStudents : List GoalStudent :=
  [⟨"s1", "Bob", "b@x", "Pune", "Malhar"⟩, ⟨"s2", "Al", "a@x", "Pune", "Bhairav"⟩]

/-- The submitter-id set for `sampleStudents`: only `s1`. -/
def sampleIds : List String := ["s1"]

/-- A submitter-id set covering both sample students. -/
def sampleAllIds : List String := ["s1", "s2"]

/-- C6 witness: with one absent student the goal embed's extra field is
the (short, untruncated) absent-name list, with none it is the Perfect
Attendance banner, and a concrete reflection-embed field name is drawn
from the fixed count-only palette. -/
theorem absent_names_field_witness :
    (goalExtraField (absentStudents sampleStudents sampleIds).length
        (absentNamesJoined sampleStudents sampleIds)).name = "👥 Absent Students"
    ∧ (goalExtraField (absentStudents sampleStudents sampleIds).length
        (absentNamesJoined sampleStudents sampleIds)).value
      = absentNamesJoined sampleStudents sampleIds
    ∧ (goalExtraField (absentStudents sampleStudents sampleAllIds).length
        (absentNamesJoined sampleStudents sampleAllIds)).name = "🎉 Perfect Attendance!"
    ∧ "✅ Present" ∈ ["✅ Present", "❌ Absent", "📈 Completion Rate", "🎉 Perfect Day!",
        "💪 Excellent Work!", "👍 Good Progress", "📝 Reminder", "⚠️ Low Completion"] := by
  have hmap : (absentStudents sampleStudents sampleIds).map (fun s => s.name) = ["Al"] := by
    decide
  have hsorted : sortedAbsentNames sampleStudents sampleIds = ["Al"] := by
    unfold sortedAbsentNames
    rw [hmap, List.mergeSort_singleton]
  have hjoin : absentNamesJoined sampleStudents sampleIds = "Al" := by
    unfold absentNamesJoined
    rw [hsorted]
    decide
  refine ⟨?_, ?_, ?_, ?_⟩
  · exact ((absent_names_field_and_budget sampleStudents sampleIds "d" "t" 1 2).2.1
      (by decide)).1
  · exact (((absent_names_field_and_budget sampleStudents sampleIds "d" "t" 1 2).2.1
      (by decide)).2.1 (by rw [hjoin]; decide))
  · exact (absent_names_field_and_budget sampleStudents sampleAllIds "d" "t" 2 2).2.2.1
      (by decide)
  · exact (absent_names_field_and_budget sampleStudents sampleAllIds "d" "t" 2 2).2.2.2
      { name := "✅ Present", value := "**2** students", isInline := true } (by decide)

/-! ### Mentor request lifecycle (modelled)

The TypeScript module implementing `requestMentorChange`,
`approveMentorRequest` and `rejectMentorRequest`
(`src/services/dataServices.ts`) is not part of the source tree; only
the code snippets quoted in `src/unnamed/part_000` (the write-payload
builders, the pending-pointer updates) and the specification describe
it.  The definitions below are modelled from those. -/

/-- Lifecycle status of a mentor change request. -/
inductive RequestStatus where
  | pending
  | approved
  | rejected
deriving DecidableEq, Repr

/-- A value stored in one field of a persisted document. -/
inductive FieldVal where
  | str : String → FieldVal
  | time : Nat → FieldVal
  | reqStatus : RequestStatus → FieldVal
deriving DecidableEq, Repr

/-- JS truthiness of an optional string argument: supplied and
non-empty. -/
def truthyStr : Option String → Bool
  | none => false
  | some s => !s.isEmpty

/-- First-match lookup in an association list keyed by strings (a
persisted document, or a keyed collection). -/
def assocFind {α : Type} (k : String) : List (String × α) → Option α
  | [] => none
  | (k₁, v) :: rest => if k = k₁ then some v else assocFind k rest

/-- Insert-or-replace in an association list. -/
def assocSet {α : Type} (k : String) (v : α) : List (String × α) → List (String × α)
  | [] => [(k, v)]
  | (k₁, v₁) :: rest => if k = k₁ then (k, v) :: rest else (k₁, v₁) :: assocSet k v rest

/-- An optional string field is appended to a write payload only when
truthy (`if (x) { data.key = x }` in the part_000 snippets); otherwise
the payload carries no such key at all. -/
def optStrField (key : String) : Option String → List (String × FieldVal)
  | none => []
  | some s => if s.isEmpty then [] else [(key, .str s)]

/-- Modelled from the spec: the persisted record built by
`requestMentorChange` / `createRequest` (snippet in part_000 lines
136-157): the seven required fields, then `current_mentor_id`,
`current_mentor_name` and `reason` each added only when truthy. -/
def requestMentorChangeData (studentId studentName studentEmail requestedMentorId
    requestedMentorName : String) (currentMentorId currentMentorName reason : Option String)
    (now : Nat) : List (String × FieldVal) :=
  [("student_id", .str studentId),
   ("student_name", .str studentName),
   ("student_email", .str studentEmail),
   ("requested_mentor_id", .str requestedMentorId),
   ("requested_mentor_name", .str requestedMentorName),
   ("status", .reqStatus .pending),
   ("created_at", .time now)]
  ++ optStrField "current_mentor_id" currentMentorId
  ++ optStrField "current_mentor_name" currentMentorName
  ++ optStrField "reason" reason

/-- Modelled from the spec: the update payload written to the request by
`approveMentorRequest` (snippet in part_000 lines 202-213): status,
reviewer metadata, and `admin_notes` only when truthy. -/
def approveUpdateData (adminId : String) (adminNotes : Option String) (now : Nat) :
    List (String × FieldVal) :=
  [("status", .reqStatus .approved),
   ("reviewed_at", .time now),
   ("reviewed_by", .str adminId)]
  ++ optStrField "admin_notes" adminNotes

/-- Lookup distributes over concatenated payload segments, preferring
the left one. -/
theorem assocFind_append {α : Type} (k : String) (l₁ l₂ : List (String × α)) :
    assocFind k (l₁ ++ l₂) = (assocFind k l₁).or (assocFind k l₂) := by
  induction l₁ with
  | nil => simp [assocFind]
  | cons p rest ih =>
    cases p with
    | mk k₁ v =>
      by_cases h : k = k₁
      · simp [assocFind, h]
      · simp [assocFind, h, ih]

/-- An optional-field segment never answers a lookup for a different
key. -/
theorem assocFind_optStrField_ne (k key : String) (h : k ≠ key) (v : Option String) :
    assocFind k (optStrField key v) = none := by
  cases v with
  | none => rfl
  | some s =>
    by_cases hs : s.isEmpty
    · simp [optStrField, hs, assocFind]
    · simp [optStrField, hs, assocFind, h]

/-- C1: in the records persisted by createRequest and approve, each
optional field (`current_mentor_id`, `current_mentor_name`, `reason`,
`admin_notes`) is present exactly when the caller supplied a truthy
value — then holding that value — and is entirely absent otherwise
(never a placeholder).  Stated as: the lookup of each optional key
equals the truthy-filtered supplied value. -/
theorem optional_fields_present_iff_truthy (studentId studentName studentEmail
    requestedMentorId requestedMentorName adminId : String)
    (currentMentorId currentMentorName reason adminNotes : Option String) (now now₂ : Nat) :
    (assocFind "current_mentor_id"
        (requestMentorChangeData studentId studentName studentEmail requestedMentorId
          requestedMentorName currentMentorId currentMentorName reason now)
      = (assocFind "current_mentor_id" (optStrField "current_mentor_id" currentMentorId)))
    ∧ (assocFind "current_mentor_name"
        (requestMentorChangeData studentId studentName studentEmail requestedMentorId
          requestedMentorName currentMentorId currentMentorName reason now)
      = (assocFind "current_mentor_name" (optStrField "current_mentor_name" currentMentorName)))
    ∧ (assocFind "reason"
        (requestMentorChangeData studentId studentName studentEmail requestedMentorId
          requestedMentorName currentMentorId currentMentorName reason now)
      = (assocFind "reason" (optStrField "reason" reason)))
    ∧ (assocFind "admin_notes" (approveUpdateData adminId adminNotes now₂)
      = (assocFind "admin_notes" (optStrField "admin_notes" adminNotes)))
    ∧ (∀ key v, (assocFind key (optStrField key v)).isSome = truthyStr v)
    ∧ (∀ key v s, v = some s → ¬s.isEmpty →
        assocFind key (optStrField key v) = some (.str s)) := by
  refine ⟨?_, ?_, ?_, ?_, ?_, ?_⟩
  · simp only [requestMentorChangeData, List.append_assoc, assocFind_append]
    rw [show assocFind "current_mentor_id"
        [("student_id", FieldVal.str studentId), ("student_name", .str studentName),
         ("student_email", .str studentEmail), ("requested_mentor_id", .str requestedMentorId),
         ("requested_mentor_name", .str requestedMentorName), ("status", .reqStatus .pending),
         ("created_at", .time now)] = none from by simp [assocFind]]
    rw [assocFind_optStrField_ne "current_mentor_id" "current_mentor_name" (by decide)
        currentMentorName]
    rw [assocFind_optStrField_ne "current_mentor_id" "reason" (by decide) reason]
    simp
  · simp only [requestMentorChangeData, List.append_assoc, assocFind_append]
    rw [show assocFind "current_mentor_name"
        [("student_id", FieldVal.str studentId), ("student_name", .str studentName),
         ("student_email", .str studentEmail), ("requested_mentor_id", .str requestedMentorId),
         ("requested_mentor_name", .str requestedMentorName), ("status", .reqStatus .pending),
         ("created_at", .time now)] = none from by simp [assocFind]]
    rw [assocFind_optStrField_ne "current_mentor_name" "current_mentor_id" (by decide)
        currentMentorId]
    rw [assocFind_optStrField_ne "current_mentor_name" "reason" (by decide) reason]
    simp
  · simp only [requestMentorChangeData, List.append_assoc, assocFind_append]
    rw [show assocFind "reason"
        [("student_id", FieldVal.str studentId), ("student_name", .str studentName),
         ("student_email", .str studentEmail), ("requested_mentor_id", .str requestedMentorId),
         ("requested_mentor_name", .str requestedMentorName), ("status", .reqStatus .pending),
         ("created_at", .time now)] = none from by simp [assocFind]]
    rw [assocFind_optStrField_ne "reason" "current_mentor_id" (by decide) currentMentorId]
    rw [assocFind_optStrField_ne "reason" "current_mentor_name" (by decide) currentMentorName]
    simp
  · simp only [approveUpdateData, List.append_assoc, assocFind_append]
    rw [show assocFind "admin_notes"
        [("status", FieldVal.reqStatus .approved), ("reviewed_at", .time now₂),
         ("reviewed_by", .str adminId)] = none from by simp [assocFind]]
    simp
  · intro key v
    cases v with
    | none => rfl
    | some s =>
      by_cases hs : s.isEmpty
      · simp [optStrField, hs, assocFind, truthyStr]
      · simp [optStrField, hs, assocFind, truthyStr]
  · intro key v s hv hs
    subst hv
    simp [optStrField, hs, assocFind]

/-- C1 witness: a createRequest payload with no current mentor and a
non-empty reason carries the reason verbatim, and an approve payload
without notes carries no `admin_notes` key. -/
theorem optional_fields_witness :
    assocFind "reason"
        (requestMentorChangeData "s1" "Bob" "b@x" "m2" "Mia" none none (some "growth") 7)
      = some (.str "growth")
    ∧ assocFind "admin_notes" (approveUpdateData "adm" none 9) = none := by
  have h := optional_fields_present_iff_truthy "s1" "Bob" "b@x" "m2" "Mia" "adm"
    none none (some "growth") none 7 9
  constructor
  · rw [h.2.2.1]
    exact h.2.2.2.2.2 "reason" (some "growth") "growth" rfl (by decide)
  · rw [h.2.2.2.1]
    rfl

/-- A user document as the lifecycle reads and writes it: mentor
pointers are optional fields; `some ""` is the explicit empty value,
`none` is key absence. -/
structure UserRec where
  name : String
  email : String
  mentor_id : Option String
  pending_mentor_id : Option String
deriving DecidableEq, Repr

/-- A mentor change request document. -/
structure RequestRec where
  student_id : String
  requested_mentor_id : String
  status : RequestStatus
  reviewed_at : Option Nat
  reviewed_by : Option String
  admin_notes : Option String
deriving DecidableEq, Repr

/-- The two collections the lifecycle touches, keyed by document id. -/
structure Store where
  users : List (String × UserRec)
  requests : List (String × RequestRec)
deriving DecidableEq, Repr

/-- The lifecycle error taxonomy of the spec (§7). -/
inductive OpError where
  | validationError
  | invalidStateError
  | storeError
deriving DecidableEq, Repr

/-- Modelled from the spec: `approve(requestId, adminId, notes?)`
(spec §4.1; update payloads from the part_000 snippets).  Precondition:
the request exists and is pending, otherwise `InvalidStateError` with no
write.  On success the request document is updated (status, reviewer
metadata, notes only when truthy) and then the student document gets
`mentor_id := requestedMentorId`, `pending_mentor_id := ""` (explicit
empty string).  The two writes are not atomic: a missing student leaves
the request already updated. -/
def approveMentorRequest (requestId adminId : String) (adminNotes : Option String)
    (now : Nat) (st : Store) : Store × Except OpError Unit :=
  match assocFind requestId st.requests with
  | none => (st, .error .invalidStateError)
  | some req =>
    if req.status = .pending then
      let req₂ : RequestRec :=
        { req with status := .approved, reviewed_at := some now, reviewed_by := some adminId,
                   admin_notes := if truthyStr adminNotes then adminNotes else req.admin_notes }
      let st₂ : Store := { st with requests := assocSet requestId req₂ st.requests }
      match assocFind req.student_id st₂.users with
      | none => (st₂, .error .storeError)
      | some u =>
        let u₂ : UserRec :=
          { u with mentor_id := some req.requested_mentor_id, pending_mentor_id := some "" }
        ({ st₂ with users := assocSet req.student_id u₂ st₂.users }, .ok ())
    else (st, .error .invalidStateError)

/-- Modelled from the spec: `reject(requestId, adminId, notes?)`
(spec §4.1): same precondition and reviewer metadata, but the student
update only clears `pending_mentor_id` (to the explicit empty string);
`mentor_id` is untouched. -/
def rejectMentorRequest (requestId adminId : String) (adminNotes : Option String)
    (now : Nat) (st : Store) : Store × Except OpError Unit :=
  match assocFind requestId st.requests with
  | none => (st, .error .invalidStateError)
  | some req =>
    if req.status = .pending then
      let req₂ : RequestRec :=
        { req with status := .rejected, reviewed_at := some now, reviewed_by := some adminId,
                   admin_notes := if truthyStr adminNotes then adminNotes else req.admin_notes }
      let st₂ : Store := { st with requests := assocSet requestId req₂ st.requests }
      match assocFind req.student_id st₂.users with
      | none => (st₂, .error .storeError)
      | some u =>
        let u₂ : UserRec := { u with pending_mentor_id := some "" }
        ({ st₂ with users := assocSet req.student_id u₂ st₂.users }, .ok ())
    else (st, .error .invalidStateError)

/-- C2: on a request whose status is already approved or rejected, both
approve and reject fail with `InvalidStateError` and return the store
untouched: no request document and no student document is written. -/
theorem terminal_request_rejects_further_transitions (st : Store) (rid adminId : String)
    (notes : Option String) (now : Nat) (req : RequestRec)
    (hfind : assocFind rid st.requests = some req)
    (hterm : req.status = .approved ∨ req.status = .rejected) :
    approveMentorRequest rid adminId notes now st = (st, .error .invalidStateError)
    ∧ rejectMentorRequest rid adminId notes now st = (st, .error .invalidStateError) := by
  have hnp : ¬req.status = .pending := by
    rcases hterm with h | h <;> rw [h] <;> intro hc <;> cases hc
  constructor
  · unfold approveMentorRequest
    rw [hfind]
    simp [hnp]
  · unfold rejectMentorRequest
    rw [hfind]
    simp [hnp]

/-- A store holding one already-approved request and its student. -/
def terminalStore : Store :=
  { users := [("s1", ⟨"Bob", "b@x", some "m1", some ""⟩)],
    requests := [("r1", ⟨"s1", "m2", .approved, some 3, some "adm", none⟩)] }

/-- C2 witness: re-approving or re-rejecting the already-approved
request of `terminalStore` fails with `InvalidStateError` and leaves the
store unchanged. -/
theorem terminal_request_witness :
    approveMentorRequest "r1" "adm2" (some "again") 9 terminalStore
      = (terminalStore, .error .invalidStateError)
    ∧ rejectMentorRequest "r1" "adm2" none 9 terminalStore
      = (terminalStore, .error .invalidStateError) := by
  have h1 := terminal_request_rejects_further_transitions terminalStore "r1" "adm2"
    (some "again") 9 ⟨"s1", "m2", .approved, some 3, some "adm", none⟩ (by decide)
    (Or.inl rfl)
  have h2 := terminal_request_rejects_further_transitions terminalStore "r1" "adm2"
    none 9 ⟨"s1", "m2", .approved, some 3, some "adm", none⟩ (by decide) (Or.inl rfl)
  exact ⟨h1.1, h2.2⟩

/-- Replacing a key makes later lookups of that key see the new value. -/
theorem assocFind_assocSet_self {α : Type} (k : String) (v : α) (l : List (String × α)) :
    assocFind k (assocSet k v l) = some v := by
  induction l with
  | nil => simp [assocSet, assocFind]
  | cons p rest ih =>
    cases p with
    | mk k₁ v₁ =>
      by_cases h : k = k₁
      · simp [assocSet, h, assocFind]
      · simp [assocSet, h, assocFind, ih]

/-- C3: a successful approve rewrites the student document so that
`mentor_id` equals the request's `requested_mentor_id` and
`pending_mentor_id` is the explicit empty string; a successful reject
only sets `pending_mentor_id` to the empty string and leaves `mentor_id`
exactly as it was. -/
theorem approve_and_reject_update_student_pointer (st st₂ : Store) (rid adminId : String)
    (notes : Option String) (now : Nat) :
    (approveMentorRequest rid adminId notes now st = (st₂, .ok ()) →
      ∃ req u, assocFind rid st.requests = some req
        ∧ assocFind req.student_id st.users = some u
        ∧ assocFind req.student_id st₂.users
          = some { u with mentor_id := some req.requested_mentor_id,
                          pending_mentor_id := some "" })
    ∧ (rejectMentorRequest rid adminId notes now st = (st₂, .ok ()) →
      ∃ req u, assocFind rid st.requests = some req
        ∧ assocFind req.student_id st.users = some u
        ∧ assocFind req.student_id st₂.users = some { u with pending_mentor_id := some "" }) := by
  constructor
  · intro hok
    unfold approveMentorRequest at hok
    cases hfind : assocFind rid st.requests with
    | none => rw [hfind] at hok; simp at hok
    | some req =>
      rw [hfind] at hok
      by_cases hp : req.status = .pending
      · simp only [hp, if_true] at hok
        cases hu : assocFind req.student_id st.users with
        | none => rw [hu] at hok; simp at hok
        | some u =>
          rw [hu] at hok
          simp only [Prod.mk.injEq] at hok
          refine ⟨req, u, rfl, hu, ?_⟩
          rw [← hok.1]
          exact assocFind_assocSet_self req.student_id _ st.users
      · simp [hp] at hok
  · intro hok
    unfold rejectMentorRequest at hok
    cases hfind : assocFind rid st.requests with
    | none => rw [hfind] at hok; simp at hok
    | some req =>
      rw [hfind] at hok
      by_cases hp : req.status = .pending
      · simp only [hp, if_true] at hok
        cases hu : assocFind req.student_id st.users with
        | none => rw [hu] at hok; simp at hok
        | some u =>
          rw [hu] at hok
          simp only [Prod.mk.injEq] at hok
          refine ⟨req, u, rfl, hu, ?_⟩
          rw [← hok.1]
          exact assocFind_assocSet_self req.student_id _ st.users
      · simp [hp] at hok

/-- A store holding one pending request and its student. -/
def pendingStore : Store :=
  { users := [("s1", ⟨"Bob", "b@x", some "m1", some "m2"⟩)],
    requests := [("r1", ⟨"s1", "m2", .pending, none, none, none⟩)] }

/-- The store produced by approving the pending request of
`pendingStore`. -/
def approvedStore : Store :=
  { users := [("s1", ⟨"Bob", "b@x", some "m2", some ""⟩)],
    requests := [("r1", ⟨"s1", "m2", .approved, some 9, some "adm", none⟩)] }

/-- The store produced by rejecting the pending request of
`pendingStore`. -/
def rejectedStore : Store :=
  { users := [("s1", ⟨"Bob", "b@x", some "m1", some ""⟩)],
    requests := [("r1", ⟨"s1", "m2", .rejected, some 9, some "adm", none⟩)] }

/-- C3 witness: approving the pending request of `pendingStore` yields a
student whose `mentor_id` is the requested mentor and whose
`pending_mentor_id` is the explicit empty string; rejecting it clears
`pending_mentor_id` and keeps `mentor_id` as it was. -/
theorem approve_reject_pointer_witness :
    (∃ req u, assocFind "r1" pendingStore.requests = some req
      ∧ assocFind req.student_id pendingStore.users = some u
      ∧ assocFind req.student_id approvedStore.users
        = some { u with mentor_id := some req.requested_mentor_id,
                        pending_mentor_id := some "" })
    ∧ (∃ req u, assocFind "r1" pendingStore.requests = some req
      ∧ assocFind req.student_id pendingStore.users = some u
      ∧ assocFind req.student_id rejectedStore.users
        = some { u with pending_mentor_id := some "" }) :=
  ⟨(approve_and_reject_update_student_pointer pendingStore approvedStore
      "r1" "adm" none 9).1 rfl,
   (approve_and_reject_update_student_pointer pendingStore rejectedStore
      "r1" "adm" none 9).2 rfl⟩

/-! ### Notification banner controller (modelled)

`src/components/Admin/MentorCampusTab.tsx` is not part of the source
tree; the auto-clear `useEffect` timers are quoted in
`src/NOTIFICATION_SYSTEM_FIX.md` (lines 36-49) and described by the
spec (§4.3).  Time is abstract (Nat time-units; 3 units for success,
5 for error).  Setting a message (re)schedules its clear relative to the
set time, replacing any pending clear — the effect cleanup cancels the
previous timer. -/

/-- A message-setting action of the approval handlers. -/
inductive NotifEvent where
  | setSuccess : String → NotifEvent
  | setError : String → NotifEvent
deriving DecidableEq, Repr

/-- The banner state: the two message slots plus, for each, the time its
current (truthy) content was set — the pending auto-clear deadline is
that time plus 3 (success) or 5 (error). -/
structure NotifState where
  successMessage : String
  errorMessage : String
  succSetAt : Option Nat
  errSetAt : Option Nat
deriving DecidableEq, Repr

/-- The initial banner state: both slots empty, no pending clears. -/
def notifInit : NotifState := ⟨"", "", none, none⟩

/-- Modelled from the spec: one `setSuccessMessage`/`setErrorMessage`
call at time `t`.  A truthy message arms (or re-arms, cancelling the
prior one) the auto-clear timer for its slot; clearing a slot disarms
it. -/
def applyNotifEvent (s : NotifState) (t : Nat) : NotifEvent → NotifState
  | .setSuccess m =>
    { s with successMessage := m, succSetAt := if m.isEmpty then none else some t }
  | .setError m =>
    { s with errorMessage := m, errSetAt := if m.isEmpty then none else some t }

/-- Modelled from the spec: what the banner shows at time `t` — an armed
timer whose deadline (set time + 3 for success, + 5 for error) has
passed has fired, clearing its slot. -/
def expireNotif (s : NotifState) (t : Nat) : NotifState :=
  let s₁ := match s.succSetAt with
    | some tset => if tset + 3 ≤ t then { s with successMessage := "", succSetAt := none } else s
    | none => s
  match s₁.errSetAt with
  | some tset => if tset + 5 ≤ t then { s₁ with errorMessage := "", errSetAt := none } else s₁
  | none => s₁

/-- The state reached by applying a time-stamped event trace in order. -/
def runNotifEvents (evts : List (Nat × NotifEvent)) : NotifState :=
  evts.foldl (fun s te => applyNotifEvent s te.1 te.2) notifInit

/-- The banner observed at time `t` after the trace. -/
def observeNotif (evts : List (Nat × NotifEvent)) (t : Nat) : NotifState :=
  expireNotif (runNotifEvents evts) t

/-- A success slot whose `+ 3` deadline has passed is observed empty. -/
theorem expireNotif_succ_clear (s : NotifState) (t T : Nat) (hset : s.succSetAt = some T)
    (h : T + 3 ≤ t) : (expireNotif s t).successMessage = "" := by
  unfold expireNotif
  rw [hset]
  simp only [h, if_true]
  rcases herr : s.errSetAt with _ | te
  · simp [herr]
  · simp only [herr]
    split <;> simp

/-- An error slot whose `+ 5` deadline has passed is observed empty. -/
theorem expireNotif_err_clear (s : NotifState) (t T : Nat) (hset : s.errSetAt = some T)
    (h : T + 5 ≤ t) : (expireNotif s t).errorMessage = "" := by
  unfold expireNotif
  rcases hsucc : s.succSetAt with _ | ts
  · simp only [hsucc]
    rw [hset]
    simp [h]
  · simp only [hsucc]
    by_cases h3 : ts + 3 ≤ t
    · simp only [h3, if_true]
      simp [hset, h]
    · simp only [h3, if_false]
      rw [hset]
      simp [h]

/-- C9: a success message whose (last, unsuperseded) set happened at
time `T` is cleared by every observation time `≥ T + 3`; an error
message set at `T` is cleared by `T + 5`; and setting a new truthy
message at `t` re-arms its slot's clear relative to `t`, replacing
whatever clear was pending (cancellation). -/
theorem notification_auto_clear (evts : List (Nat × NotifEvent)) (t T : Nat) :
    ((runNotifEvents evts).succSetAt = some T → T + 3 ≤ t →
      (observeNotif evts t).successMessage = "")
    ∧ ((runNotifEvents evts).errSetAt = some T → T + 5 ≤ t →
      (observeNotif evts t).errorMessage = "")
    ∧ (∀ s t₁ m, ¬m.isEmpty →
        (applyNotifEvent s t₁ (.setSuccess m)).succSetAt = some t₁
        ∧ (applyNotifEvent s t₁ (.setError m)).errSetAt = some t₁) := by
  refine ⟨?_, ?_, ?_⟩
  · intro hset hle
    exact expireNotif_succ_clear (runNotifEvents evts) t T hset hle
  · intro hset hle
    exact expireNotif_err_clear (runNotifEvents evts) t T hset hle
  · intro s t₁ m hm
    constructor
    · simp [applyNotifEvent, hm]
    · simp [applyNotifEvent, hm]

/-- C9 witness: after a success message at time 0 superseded by another
at time 2, the banner still shows it at time 4 but not at time 5; an
error message set at time 1 is gone at time 6; and a set at time 2
re-arms the deadline to 2. -/
theorem notification_auto_clear_witness :
    (observeNotif [(0, .setSuccess "saved"), (2, .setSuccess "again")] 5).successMessage = ""
    ∧ (observeNotif [(1, .setError "failed")] 6).errorMessage = ""
    ∧ (applyNotifEvent notifInit 2 (.setSuccess "again")).succSetAt = some 2 := by
  refine ⟨?_, ?_, ?_⟩
  · exact (notification_auto_clear [(0, .setSuccess "saved"), (2, .setSuccess "again")] 5 2).1
      (by decide) (by decide)
  · exact (notification_auto_clear [(1, .setError "failed")] 6 1).2.1 (by decide) (by decide)
  · exact ((notification_auto_clear [] 0 0).2.2 notifInit 2 "again" (by decide)).1

end DGS
